import Mathlib

/-
Verification of the crowd user/session store (users.go, stores.go).

Shallow embedding conventions:
* Go maps are modelled as functions into Option (Map below); insertion and
  deletion are pointwise updates, matching rebuild-free Go map semantics.
* time.Time instants and time.Duration values are Nat nanoseconds, one
  instant (the now parameter) per API call.
* crypto/rand output is passed in explicitly: a fresh session token is the
  freshID parameter, a fresh 32-byte salt is the salt parameter.
* scrypt.Key is modelled as the injective deterministic function pairing
  password and salt (an idealized collision-free keyed hash); bytes.Equal
  on hashes is decidable equality on the pair.
* uint64 arithmetic of the ID counter keeps the wrap-around: the successor
  is taken modulo 2 ^ 64, exactly like atomic.AddUint64.
* Functions returning a Go (value, error) pair return Except GoError or a
  result structure with an err field. On write-back failure paths Go also
  returns the partially updated value next to the error; those paths are
  unreachable with the memory backend, whose Put operations never fail.
-/

namespace Crowd

/-- Map models a Go map as a function into Option. -/
abbrev Map (α β : Type) : Type := α → Option β

/-- empty Go map: every lookup misses. -/
def Map.empty {α β : Type} : Map α β := fun _ => none

/-- insert models Go map assignment m[k] = v. -/
def Map.insert {α β : Type} [DecidableEq α] (m : Map α β) (k : α) (v : β) : Map α β :=
  fun q => if q = k then some v else m q

/-- erase models Go delete(m, k). -/
def Map.erase {α β : Type} [DecidableEq α] (m : Map α β) (k : α) : Map α β :=
  fun q => if q = k then none else m q

/-- GoError enumerates the package-level error values of users.go. -/
inductive GoError where
  | userNotFound
  | sessionNotFound
  | userExists
  | loginWrong
  | notLoggedIn
  | sessionGCRunning
  | sessionGCStopped
  deriving DecidableEq, Repr

/-- one minute in nanoseconds (Go time.Minute). -/
def timeMinute : Nat := 60 * 1000000000

/-- one hour in nanoseconds (Go time.Hour). -/
def timeHour : Nat := 60 * timeMinute

/-- defaultSessionCookieExpirationLoggedin = time.Hour * 24 * 90. -/
def defaultSessionCookieExpirationLoggedin : Nat := timeHour * 24 * 90

/-- defaultSessionCookieExpiration = time.Minute. -/
def defaultSessionCookieExpiration : Nat := timeMinute

/-- uint64Size is 2 ^ 64, the modulus of Go uint64 arithmetic. -/
def uint64Size : Nat := 2 ^ 64

/-- Hash models the 32-byte output of scrypt.Key as a password-salt pair. -/
abbrev Hash : Type := String × Nat

/-- scryptKey models scrypt.Key(pass, salt, 16384, 8, 1, 32): deterministic
in its inputs and idealized as collision free. -/
def scryptKey (password : String) (salt : Nat) : Hash := (password, salt)

/-- Session mirrors type Session of users.go. -/
structure Session where
  ID : String
  Expires : Nat
  LastAccess : Nat
  LoggedIn : Bool
  UserID : Nat
  deriving DecidableEq, Repr

/-- User mirrors type User of users.go without the embedded Session pointer,
which the API results below carry as a separate sess field. Data models the
opaque interface value. -/
structure User where
  ID : Nat
  Name : String
  Pass : Hash
  Salt : Nat
  Data : Option String := none
  deriving DecidableEq, Repr

/-- memoryStore of stores.go: sessions map, users map, the userIDs secondary
index and the maxUserID counter. -/
structure MemoryStore where
  sessions : Map String Session
  users : Map Nat User
  userIDs : Map String Nat
  maxUserID : Nat

/-- GetSession of the memory backend. -/
def MemoryStore.getSession (ms : MemoryStore) (id : String) : Except GoError Session :=
  match ms.sessions id with
  | none => .error .sessionNotFound
  | some sess => .ok sess

/-- PutSession of the memory backend. -/
def MemoryStore.putSession (ms : MemoryStore) (sess : Session) : MemoryStore :=
  { ms with sessions := ms.sessions.insert sess.ID sess }

/-- DeleteSession of the memory backend. -/
def MemoryStore.deleteSession (ms : MemoryStore) (id : String) : MemoryStore :=
  { ms with sessions := ms.sessions.erase id }

/-- GetUser of the memory backend. -/
def MemoryStore.getUser (ms : MemoryStore) (id : Nat) : Except GoError User :=
  match ms.users id with
  | none => .error .userNotFound
  | some u => .ok u

/-- GetUserID of the memory backend: the name to ID index lookup. -/
def MemoryStore.getUserID (ms : MemoryStore) (username : String) : Except GoError Nat :=
  match ms.userIDs username with
  | none => .error .userNotFound
  | some uid => .ok uid

/-- PutUser of the memory backend: writes the user under its ID and does not
touch the userIDs index. -/
def MemoryStore.putUser (ms : MemoryStore) (u : User) : MemoryStore :=
  { ms with users := ms.users.insert u.ID u }

/-- nextUserID of the memory backend: atomic.AddUint64 on maxUserID, with
uint64 wrap-around. Returns the incremented value and the updated store. -/
def MemoryStore.nextUserID (ms : MemoryStore) : Nat × MemoryStore :=
  let id := (ms.maxUserID + 1) % uint64Size
  (id, { ms with maxUserID := id })

/-- AddUser of the memory backend: assigns the next ID, stores the user and
indexes its name. -/
def MemoryStore.addUser (ms : MemoryStore) (u : User) : Nat × MemoryStore :=
  let (id, ms1) := ms.nextUserID
  let u1 := { u with ID := id }
  (id, { ms1 with users := ms1.users.insert id u1,
                  userIDs := ms1.userIDs.insert u1.Name id })

/-- RenameUser of the memory backend: drops the old name from the index,
indexes the new name and rewrites the user record, keeping the ID. -/
def MemoryStore.renameUser (ms : MemoryStore) (id : Nat) (newname : String) :
    Except GoError MemoryStore :=
  match ms.users id with
  | none => .error .userNotFound
  | some u =>
    .ok { ms with userIDs := (ms.userIDs.erase u.Name).insert newname id,
                  users := ms.users.insert id { u with Name := newname } }

/-- DeleteUser of the memory backend: removes the record and its name index
entry; fails with ErrUserNotFound when the ID is absent. -/
def MemoryStore.deleteUser (ms : MemoryStore) (id : Nat) : Except GoError MemoryStore :=
  match ms.users id with
  | none => .error .userNotFound
  | some u =>
    .ok { ms with users := ms.users.erase id,
                  userIDs := ms.userIDs.erase u.Name }

/-- Store of users.go with the memory backend plugged in for the Storage
interface. The stop channel and the GC goroutine are collapsed into the
gcRunning flag: stopping takes effect at the next sweep boundary, which the
sequential model folds into the call. -/
structure Store where
  store : MemoryStore
  gcRunning : Bool

/-- NewStore: wraps a backend and starts the session GC. -/
def NewStore (ms : MemoryStore) : Store :=
  { store := ms, gcRunning := true }

/-- NewMemoryStore: a Store over an empty memory backend. -/
def NewMemoryStore : Store :=
  NewStore { sessions := Map.empty, users := Map.empty,
             userIDs := Map.empty, maxUserID := 0 }

/-- StartSessionGC: fails with ErrSessionGCRunning when already running,
otherwise starts the GC. -/
def Store.startSessionGC (st : Store) : Option GoError × Store :=
  if st.gcRunning then (some .sessionGCRunning, st)
  else (none, { st with gcRunning := true })

/-- StopSessionGC: fails with ErrSessionGCStopped when already stopped,
otherwise signals the GC loop, which clears gcRunning. -/
def Store.stopSessionGC (st : Store) : Option GoError × Store :=
  if st.gcRunning = false then (some .sessionGCStopped, st)
  else (none, { st with gcRunning := false })

/-- makeSession of users.go: a fresh session whose random 24-byte token is
the freshID parameter, expiring one anonymous TTL from now; LoggedIn and
UserID keep their Go zero values. -/
def makeSession (freshID : String) (now : Nat) : Session :=
  { ID := freshID
    Expires := now + defaultSessionCookieExpiration
    LastAccess := now
    LoggedIn := false
    UserID := 0 }

/-- getSessionID of users.go. Unknown token or expired session: mint a fresh
session. Otherwise renew: LastAccess now, sliding expiry by the logged-in or
anonymous TTL. Every success reports changed = true; on a non-not-found
backend error Go returns (nil, false, err), here the error alone. -/
def Store.getSessionID (st : Store) (freshID : String) (now : Nat) (id : String) :
    Except GoError (Session × Bool) :=
  match st.store.getSession id with
  | .error e =>
    if e = .sessionNotFound then .ok (makeSession freshID now, true)
    else .error e
  | .ok sess =>
    if sess.Expires < now then .ok (makeSession freshID now, true)
    else
      .ok ({ sess with
              LastAccess := now
              Expires := now + (if sess.LoggedIn then
                  defaultSessionCookieExpirationLoggedin
                else defaultSessionCookieExpiration) }, true)

/-- UserRes models the (user, changed, error) results of Store methods; sess
is the Session pointer Go embeds into the returned User. -/
structure UserRes where
  user : Option User
  sess : Option Session
  changed : Bool
  err : Option GoError
  st : Store

/-- SessRes models the (session, changed, error) results of logoutID and
deleteID. -/
structure SessRes where
  sess : Option Session
  changed : Bool
  err : Option GoError
  st : Store

/-- login of users.go: resolve the name, load the user, compare the salted
hash. Unknown name, dangling index and hash mismatch all yield ErrLoginWrong;
a mismatch also clears LoggedIn on the session copy. The backend is not
written here. -/
def Store.login (st : Store) (sess : Session) (username password : String) :
    Except GoError User × Session :=
  match st.store.getUserID username with
  | .error .userNotFound => (.error .loginWrong, sess)
  | .error e => (.error e, sess)
  | .ok uid =>
    match st.store.getUser uid with
    | .error .userNotFound => (.error .loginWrong, sess)
    | .error e => (.error e, sess)
    | .ok user =>
      if scryptKey password user.Salt = user.Pass then
        (.ok user, { sess with LoggedIn := true, UserID := user.ID })
      else
        (.error .loginWrong, { sess with LoggedIn := false })

/-- loginID of users.go: resolve the session, attempt the login, and persist
the session only on success. -/
def Store.loginID (st : Store) (freshID : String) (now : Nat)
    (id username password : String) : UserRes :=
  match st.getSessionID freshID now id with
  | .error e => { user := none, sess := none, changed := false, err := some e, st := st }
  | .ok (sess, changed) =>
    match st.login sess username password with
    | (.error e, sess1) =>
      { user := none, sess := some sess1, changed := changed, err := some e, st := st }
    | (.ok u, sess1) =>
      { user := some u, sess := some sess1, changed := true, err := none,
        st := { st with store := st.store.putSession sess1 } }

/-- register of users.go: fails with ErrUserExists when the name resolves;
otherwise builds the user from a fresh salt, adds it to the backend and binds
the session to the new ID. -/
def Store.register (st : Store) (sess : Session) (name pass : String) (salt : Nat) :
    Except GoError User × Session × MemoryStore :=
  match st.store.getUserID name with
  | .ok _ => (.error .userExists, sess, st.store)
  | .error e =>
    if e = .userNotFound then
      let user : User := { ID := 0, Name := name, Pass := scryptKey pass salt, Salt := salt }
      let (uid, ms) := st.store.addUser user
      (.ok { user with ID := uid }, { sess with LoggedIn := true, UserID := uid }, ms)
    else (.error e, sess, st.store)

/-- registerID of users.go: resolve the session, register, and persist the
bound session on success. -/
def Store.registerID (st : Store) (freshID : String) (now : Nat)
    (id username pass : String) (salt : Nat) : UserRes :=
  match st.getSessionID freshID now id with
  | .error e => { user := none, sess := none, changed := false, err := some e, st := st }
  | .ok (sess, changed) =>
    match st.register sess username pass salt with
    | (.error e, sess1, ms) =>
      { user := none, sess := some sess1, changed := changed, err := some e,
        st := { st with store := ms } }
    | (.ok u, sess1, ms) =>
      { user := some u, sess := some sess1, changed := true, err := none,
        st := { st with store := ms.putSession sess1 } }

/-- setPassword of users.go: requires a logged-in session, regenerates the
salt, rehashes and writes the user back. -/
def Store.setPassword (st : Store) (sess : Session) (pass : String) (salt : Nat) :
    Except GoError User × MemoryStore :=
  if sess.LoggedIn = false then (.error .notLoggedIn, st.store)
  else
    match st.store.getUser sess.UserID with
    | .error e => (.error e, st.store)
    | .ok user =>
      let user1 := { user with Salt := salt, Pass := scryptKey pass salt }
      (.ok user1, st.store.putUser user1)

/-- setName of users.go: requires a logged-in session, rejects a taken name
with ErrUserExists and renames through RenameUser, keeping the index. -/
def Store.setName (st : Store) (sess : Session) (name : String) :
    Except GoError User × MemoryStore :=
  if sess.LoggedIn = false then (.error .notLoggedIn, st.store)
  else
    match st.store.getUser sess.UserID with
    | .error e => (.error e, st.store)
    | .ok user =>
      match st.store.getUserID name with
      | .ok _ => (.error .userExists, st.store)
      | .error e =>
        if e = .userNotFound then
          match st.store.renameUser sess.UserID name with
          | .error e1 => (.error e1, st.store)
          | .ok ms => (.ok user, ms)
        else (.error e, st.store)

/-- UserIDSetUsername of users.go: loads the user, rejects a taken new name,
then rewrites the record via DeleteUser followed by PutUser. -/
def Store.userIDSetUsername (st : Store) (id : Nat) (next : String) :
    Except GoError User × MemoryStore :=
  match st.store.getUser id with
  | .error e => (.error e, st.store)
  | .ok user =>
    match st.store.getUserID next with
    | .ok _ => (.error .userExists, st.store)
    | .error e =>
      if e = .userNotFound then
        let user1 := { user with Name := next }
        match st.store.deleteUser id with
        | .error e1 => (.error e1, st.store)
        | .ok ms => (.ok user1, ms.putUser user1)
      else (.error e, st.store)

/-- logoutID of users.go: resolve the session; an anonymous view fails with
ErrNotLoggedIn without a write, otherwise LoggedIn is cleared and the session
persisted. -/
def Store.logoutID (st : Store) (freshID : String) (now : Nat) (id : String) : SessRes :=
  match st.getSessionID freshID now id with
  | .error e => { sess := none, changed := false, err := some e, st := st }
  | .ok (sess, changed) =>
    if sess.LoggedIn = false then
      { sess := some sess, changed := changed, err := some .notLoggedIn, st := st }
    else
      let sess1 := { sess with LoggedIn := false }
      { sess := some sess1, changed := true, err := none,
        st := { st with store := st.store.putSession sess1 } }

/-- deleteID of users.go: resolve the session; an anonymous view fails with
ErrNotLoggedIn, otherwise the bound user is deleted and on success the
session is unbound (LoggedIn false, UserID 0) and persisted. -/
def Store.deleteID (st : Store) (freshID : String) (now : Nat) (id : String) : SessRes :=
  match st.getSessionID freshID now id with
  | .error e => { sess := none, changed := false, err := some e, st := st }
  | .ok (sess, changed) =>
    if sess.LoggedIn = false then
      { sess := some sess, changed := changed, err := some .notLoggedIn, st := st }
    else
      match st.store.deleteUser sess.UserID with
      | .error e => { sess := some sess, changed := changed, err := some e, st := st }
      | .ok ms =>
        let sess1 := { sess with LoggedIn := false, UserID := 0 }
        { sess := some sess1, changed := true, err := none,
          st := { st with store := ms.putSession sess1 } }

/-- StoreOp is one user-side operation of the Storage interface, used to
state trace properties of the memory backend. -/
inductive StoreOp where
  | addUser (u : User)
  | putUser (u : User)
  | renameUser (id : Nat) (name : String)
  | deleteUser (id : Nat)

/-- applyOp runs one operation on the memory backend, returning the next
state and the ID assigned when the operation was an AddUser. Failing
renames and deletes leave the state unchanged. -/
def MemoryStore.applyOp (ms : MemoryStore) : StoreOp → MemoryStore × Option Nat
  | .addUser u => ((ms.addUser u).2, some (ms.addUser u).1)
  | .putUser u => (ms.putUser u, none)
  | .renameUser id n =>
    (match ms.renameUser id n with | .ok ms1 => ms1 | .error _ => ms, none)
  | .deleteUser id =>
    (match ms.deleteUser id with | .ok ms1 => ms1 | .error _ => ms, none)

/-- runOps runs a sequence of operations, collecting the IDs assigned by the
AddUser calls in order. -/
def MemoryStore.runOps (ms : MemoryStore) : List StoreOp → MemoryStore × List Nat
  | [] => (ms, [])
  | op :: ops =>
    let r1 := ms.applyOp op
    let r2 := r1.1.runOps ops
    (r2.1, r1.2.toList ++ r2.2)

/-- countAdds counts the AddUser operations of a trace. -/
def countAdds : List StoreOp → Nat
  | [] => 0
  | .addUser _ :: ops => countAdds ops + 1
  | _ :: ops => countAdds ops

/-- aliceUser is a concrete registered user for witnesses: ID 1, name alice,
password pw1 hashed with salt 7. -/
def aliceUser : User := { ID := 1, Name := "alice", Pass := scryptKey "pw1" 7, Salt := 7 }

/-- aliceSession is a concrete live session bound to aliceUser, known under
token tok and unexpired at instant 0. -/
def aliceSession : Session :=
  { ID := "tok", Expires := 100, LastAccess := 0, LoggedIn := true, UserID := 1 }

/-- wStore is a concrete store for witnesses: aliceUser registered with its
name indexed, aliceSession stored, counter at 1. -/
def wStore : Store :=
  { store := { sessions := Map.empty.insert "tok" aliceSession
               users := Map.empty.insert 1 aliceUser
               userIDs := Map.empty.insert "alice" 1
               maxUserID := 1 }
    gcRunning := true }

/-- Lookup of a freshly inserted key. -/
theorem Map.insert_self {α β : Type} [DecidableEq α] (m : Map α β) (k : α) (v : β) :
    m.insert k v k = some v := by
  simp [Map.insert]

/-- Lookup of a different key passes the insert through. -/
theorem Map.insert_ne {α β : Type} [DecidableEq α] (m : Map α β) (k q : α) (v : β)
    (h : q ≠ k) : m.insert k v q = m q := by
  simp [Map.insert, h]

/-- Lookup of an erased key misses. -/
theorem Map.erase_self {α β : Type} [DecidableEq α] (m : Map α β) (k : α) :
    m.erase k k = none := by
  simp [Map.erase]

/-- getSession succeeds exactly on the stored session. -/
theorem MemoryStore.getSession_ok_iff (ms : MemoryStore) (id : String) (sess : Session) :
    ms.getSession id = .ok sess ↔ ms.sessions id = some sess := by
  unfold MemoryStore.getSession
  cases h : ms.sessions id <;> simp

/-- getSession fails exactly with ErrSessionNotFound on a missing token. -/
theorem MemoryStore.getSession_error_iff (ms : MemoryStore) (id : String) (e : GoError) :
    ms.getSession id = .error e ↔ ms.sessions id = none ∧ e = .sessionNotFound := by
  unfold MemoryStore.getSession
  cases h : ms.sessions id <;> simp [eq_comm]

/-- getUser succeeds exactly on the stored user. -/
theorem MemoryStore.getUser_ok_iff (ms : MemoryStore) (id : Nat) (u : User) :
    ms.getUser id = .ok u ↔ ms.users id = some u := by
  unfold MemoryStore.getUser
  cases h : ms.users id <;> simp

/-- getUser fails exactly with ErrUserNotFound on a missing ID. -/
theorem MemoryStore.getUser_error_iff (ms : MemoryStore) (id : Nat) (e : GoError) :
    ms.getUser id = .error e ↔ ms.users id = none ∧ e = .userNotFound := by
  unfold MemoryStore.getUser
  cases h : ms.users id <;> simp [eq_comm]

/-- getUserID succeeds exactly on the indexed name. -/
theorem MemoryStore.getUserID_ok_iff (ms : MemoryStore) (name : String) (uid : Nat) :
    ms.getUserID name = .ok uid ↔ ms.userIDs name = some uid := by
  unfold MemoryStore.getUserID
  cases h : ms.userIDs name <;> simp

/-- getUserID fails exactly with ErrUserNotFound on an unindexed name. -/
theorem MemoryStore.getUserID_error_iff (ms : MemoryStore) (name : String) (e : GoError) :
    ms.getUserID name = .error e ↔ ms.userIDs name = none ∧ e = .userNotFound := by
  unfold MemoryStore.getUserID
  cases h : ms.userIDs name <;> simp [eq_comm]

/-- With the memory backend, getSessionID always succeeds and always reports
changed = true. -/
theorem Store.getSessionID_isOk (st : Store) (f : String) (now : Nat) (id : String) :
    ∃ sess, st.getSessionID f now id = .ok (sess, true) := by
  unfold Store.getSessionID MemoryStore.getSession
  cases h : st.store.sessions id with
  | none => exact ⟨makeSession f now, by simp⟩
  | some s0 =>
    by_cases he : s0.Expires < now
    · exact ⟨makeSession f now, by simp [he]⟩
    · refine ⟨{ s0 with
        LastAccess := now
        Expires := now + (if s0.LoggedIn then defaultSessionCookieExpirationLoggedin
          else defaultSessionCookieExpiration) }, by simp [he]⟩

/-- C2: on session lookup, an unknown token yields a fresh anonymous session
whose ID is the newly generated token, with LoggedIn false and expiry one
anonymous TTL from now; a stored session whose expiry lies before now is
replaced the same way; otherwise the stored session is kept (same ID and
UserID), its LastAccess becomes now and its expiry slides to now plus the
anonymous TTL when not logged in, or the 90-day authenticated TTL when
logged in. -/
theorem C2_session_lookup_lifecycle (st : Store) (freshID : String) (now : Nat) (tok : String) :
    (st.store.getSession tok = .error .sessionNotFound →
      st.getSessionID freshID now tok = .ok (makeSession freshID now, true) ∧
      (makeSession freshID now).ID = freshID ∧
      (makeSession freshID now).LoggedIn = false ∧
      (makeSession freshID now).Expires = now + defaultSessionCookieExpiration) ∧
    (∀ s0, st.store.getSession tok = .ok s0 → s0.Expires < now →
      st.getSessionID freshID now tok = .ok (makeSession freshID now, true)) ∧
    (∀ s0, st.store.getSession tok = .ok s0 → ¬ s0.Expires < now →
      ∃ sess, st.getSessionID freshID now tok = .ok (sess, true) ∧
        sess.ID = s0.ID ∧ sess.UserID = s0.UserID ∧ sess.LoggedIn = s0.LoggedIn ∧
        sess.LastAccess = now ∧
        sess.Expires = now + (if s0.LoggedIn then defaultSessionCookieExpirationLoggedin
          else defaultSessionCookieExpiration)) := by
  refine ⟨?_, ?_, ?_⟩
  · intro h
    rw [MemoryStore.getSession_error_iff] at h
    refine ⟨?_, rfl, rfl, rfl⟩
    unfold Store.getSessionID MemoryStore.getSession
    simp [h.1]
  · intro s0 h hexp
    rw [MemoryStore.getSession_ok_iff] at h
    unfold Store.getSessionID MemoryStore.getSession
    simp [h, hexp]
  · intro s0 h hexp
    rw [MemoryStore.getSession_ok_iff] at h
    refine ⟨{ s0 with
      LastAccess := now
      Expires := now + (if s0.LoggedIn then defaultSessionCookieExpirationLoggedin
        else defaultSessionCookieExpiration) }, ?_, rfl, rfl, rfl, rfl, rfl⟩
    unfold Store.getSessionID MemoryStore.getSession
    simp [h, hexp]

/-- Witness for C2 at a concrete store: an unknown token mints the fresh
session, and the stored live token is renewed keeping its identity. -/
theorem C2_session_lookup_lifecycle_witness :
    (wStore.getSessionID "fresh" 0 "nope" = .ok (makeSession "fresh" 0, true)) ∧
    (∃ sess, wStore.getSessionID "fresh" 0 "tok" = .ok (sess, true) ∧
      sess.ID = aliceSession.ID ∧ sess.UserID = aliceSession.UserID ∧
      sess.LoggedIn = aliceSession.LoggedIn ∧ sess.LastAccess = 0 ∧
      sess.Expires = 0 + (if aliceSession.LoggedIn then defaultSessionCookieExpirationLoggedin
        else defaultSessionCookieExpiration)) := by
  have h1 := C2_session_lookup_lifecycle wStore "fresh" 0 "nope"
  have h2 := C2_session_lookup_lifecycle wStore "fresh" 0 "tok"
  exact ⟨(h1.1 rfl).1, h2.2.2 aliceSession rfl (by decide)⟩

/-- C3: login fails with the one error value ErrLoginWrong both when the
username resolves to no user and when the stored hash differs from the hash
of the supplied password under the user's salt, so the two failures are
indistinguishable to the caller. -/
theorem C3_login_wrong_unified (st : Store) (sess : Session) (username password : String) :
    (st.store.getUserID username = .error .userNotFound →
      (st.login sess username password).1 = .error .loginWrong) ∧
    (∀ uid user, st.store.getUserID username = .ok uid →
      st.store.getUser uid = .ok user →
      scryptKey password user.Salt ≠ user.Pass →
      (st.login sess username password).1 = .error .loginWrong) := by
  constructor
  · intro h
    unfold Store.login
    rw [h]
  · intro uid user hu huser hmiss
    unfold Store.login
    simp only [hu]
    simp only [huser]
    simp [hmiss]

/-- Witness for C3 at a concrete store: an unregistered name and a wrong
password for the registered user both yield ErrLoginWrong. -/
theorem C3_login_wrong_unified_witness :
    (wStore.login aliceSession "ghost" "pw1").1 = .error .loginWrong ∧
    (wStore.login aliceSession "alice" "bad").1 = .error .loginWrong := by
  have h := C3_login_wrong_unified wStore aliceSession "ghost" "pw1"
  have h2 := C3_login_wrong_unified wStore aliceSession "alice" "bad"
  exact ⟨h.1 rfl, h2.2 1 aliceUser rfl rfl (by decide)⟩

/-- C9: StartSessionGC fails with ErrSessionGCRunning exactly when the GC is
running and otherwise starts it returning nil; StopSessionGC fails with
ErrSessionGCStopped exactly when it is stopped and otherwise stops it
returning nil; NewStore creates the store with the GC running. -/
theorem C9_gc_start_stop (st : Store) (ms : MemoryStore) :
    (st.startSessionGC = (some .sessionGCRunning, st) ↔ st.gcRunning = true) ∧
    (st.gcRunning = false → st.startSessionGC = (none, { st with gcRunning := true })) ∧
    (st.stopSessionGC = (some .sessionGCStopped, st) ↔ st.gcRunning = false) ∧
    (st.gcRunning = true → st.stopSessionGC = (none, { st with gcRunning := false })) ∧
    (NewStore ms).gcRunning = true := by
  unfold Store.startSessionGC Store.stopSessionGC NewStore
  cases h : st.gcRunning <;> simp [h]

/-- Witness for C9 at the fresh store, whose GC is running: starting again
fails with ErrSessionGCRunning and stopping succeeds. -/
theorem C9_gc_start_stop_witness :
    NewMemoryStore.startSessionGC = (some .sessionGCRunning, NewMemoryStore) ∧
    NewMemoryStore.stopSessionGC = (none, { NewMemoryStore with gcRunning := false }) := by
  have h := C9_gc_start_stop NewMemoryStore NewMemoryStore.store
  exact ⟨h.1.mpr rfl, h.2.2.2.1 rfl⟩

/-- registerID on a free name: the new user gets the next counter value as
ID, the session is bound to it and persisted, and the backend stores and
indexes the user. -/
theorem Store.registerID_free (st : Store) (f : String) (now : Nat) (tok name pass : String)
    (salt : Nat) (sess0 : Session)
    (hs : st.getSessionID f now tok = .ok (sess0, true))
    (hfree : st.store.getUserID name = .error .userNotFound) :
    st.registerID f now tok name pass salt =
      { user := some { ID := (st.store.maxUserID + 1) % uint64Size
                       Name := name
                       Pass := scryptKey pass salt
                       Salt := salt }
        sess := some { sess0 with
                       LoggedIn := true
                       UserID := (st.store.maxUserID + 1) % uint64Size }
        changed := true
        err := none
        st := { st with store :=
          { sessions := st.store.sessions.insert sess0.ID
              { sess0 with
                LoggedIn := true
                UserID := (st.store.maxUserID + 1) % uint64Size }
            users := st.store.users.insert ((st.store.maxUserID + 1) % uint64Size)
              { ID := (st.store.maxUserID + 1) % uint64Size
                Name := name
                Pass := scryptKey pass salt
                Salt := salt }
            userIDs := st.store.userIDs.insert name ((st.store.maxUserID + 1) % uint64Size)
            maxUserID := (st.store.maxUserID + 1) % uint64Size } } } := by
  unfold Store.registerID
  rw [hs]
  unfold Store.register
  simp only [hfree]
  simp [MemoryStore.addUser, MemoryStore.nextUserID, MemoryStore.putSession]

/-- loginID with a resolvable name and a matching hash succeeds and returns
the stored user. -/
theorem Store.loginID_ok_shape (st : Store) (f : String) (now : Nat) (tok name pass : String)
    (uid : Nat) (u : User) (k : Nat)
    (hname : st.store.getUserID name = .ok uid)
    (huser : st.store.getUser uid = .ok u)
    (hhash : scryptKey pass u.Salt = u.Pass)
    (hID : u.ID = k) :
    ∃ u2, (st.loginID f now tok name pass).err = none ∧
      (st.loginID f now tok name pass).user = some u2 ∧ u2.ID = k := by
  obtain ⟨sess0, hs⟩ := st.getSessionID_isOk f now tok
  refine ⟨u, ?_⟩
  unfold Store.loginID
  rw [hs]
  unfold Store.login
  simp only [hname]
  simp only [huser]
  simp [hhash, hID]

/-- C1: for a name no user holds, registerID succeeds, and a subsequent
loginID with the same name and password succeeds and returns a user with
the same ID. -/
theorem C1_register_then_login (st : Store) (f1 f2 : String) (now1 now2 : Nat)
    (tok1 tok2 name pass : String) (salt : Nat)
    (hfree : st.store.getUserID name = .error .userNotFound) :
    ∃ u, (st.registerID f1 now1 tok1 name pass salt).err = none ∧
      (st.registerID f1 now1 tok1 name pass salt).user = some u ∧
      ∃ u2, ((st.registerID f1 now1 tok1 name pass salt).st.loginID
          f2 now2 tok2 name pass).err = none ∧
        ((st.registerID f1 now1 tok1 name pass salt).st.loginID
          f2 now2 tok2 name pass).user = some u2 ∧
        u2.ID = u.ID := by
  obtain ⟨sess0, hs⟩ := st.getSessionID_isOk f1 now1 tok1
  rw [Store.registerID_free st f1 now1 tok1 name pass salt sess0 hs hfree]
  refine ⟨_, rfl, rfl, ?_⟩
  refine Store.loginID_ok_shape _ f2 now2 tok2 name pass
    ((st.store.maxUserID + 1) % uint64Size)
    { ID := (st.store.maxUserID + 1) % uint64Size
      Name := name
      Pass := scryptKey pass salt
      Salt := salt }
    ((st.store.maxUserID + 1) % uint64Size) ?_ ?_ rfl rfl
  · rw [MemoryStore.getUserID_ok_iff]
    exact Map.insert_self _ _ _
  · rw [MemoryStore.getUser_ok_iff]
    exact Map.insert_self _ _ _

/-- Witness for C1: registering alice on the empty store assigns ID 1 and
the subsequent login returns ID 1. -/
theorem C1_register_then_login_witness :
    ∃ u, (NewMemoryStore.registerID "s1" 0 "" "alice" "pw" 7).err = none ∧
      (NewMemoryStore.registerID "s1" 0 "" "alice" "pw" 7).user = some u ∧
      ∃ u2, ((NewMemoryStore.registerID "s1" 0 "" "alice" "pw" 7).st.loginID
          "s2" 0 "" "alice" "pw").err = none ∧
        ((NewMemoryStore.registerID "s1" 0 "" "alice" "pw" 7).st.loginID
          "s2" 0 "" "alice" "pw").user = some u2 ∧
        u2.ID = u.ID :=
  C1_register_then_login NewMemoryStore "s1" "s2" 0 0 "" "" "alice" "pw" 7 rfl

/-- C4: loginID with a registered name and a password whose hash mismatches
fails with ErrLoginWrong and the returned session has LoggedIn false,
whatever session the token resolved to, including a logged-in one. -/
theorem C4_wrong_password_clears_login (st : Store) (f : String) (now : Nat)
    (tok name wrong : String) (uid : Nat) (user : User)
    (hname : st.store.getUserID name = .ok uid)
    (huser : st.store.getUser uid = .ok user)
    (hmiss : scryptKey wrong user.Salt ≠ user.Pass) :
    (st.loginID f now tok name wrong).err = some .loginWrong ∧
    ∃ sess, (st.loginID f now tok name wrong).sess = some sess ∧
      sess.LoggedIn = false := by
  obtain ⟨sess0, hs⟩ := st.getSessionID_isOk f now tok
  unfold Store.loginID
  rw [hs]
  unfold Store.login
  simp only [hname]
  simp only [huser]
  simp [hmiss]

/-- Witness for C4 at a concrete store whose session is logged in: a wrong
password for alice yields ErrLoginWrong and a logged-out returned session. -/
theorem C4_wrong_password_clears_login_witness :
    (wStore.loginID "f" 0 "tok" "alice" "bad").err = some .loginWrong ∧
    ∃ sess, (wStore.loginID "f" 0 "tok" "alice" "bad").sess = some sess ∧
      sess.LoggedIn = false :=
  C4_wrong_password_clears_login wStore "f" 0 "tok" "alice" "bad" 1 aliceUser
    rfl rfl (by decide)

/-- C10: a successful logout on a stored, unexpired, logged-in session
clears LoggedIn but keeps the session ID and the UserID of the last bound
user. -/
theorem C10_logout_preserves_ids (st : Store) (f : String) (now : Nat) (tok : String)
    (s0 : Session)
    (hs : st.store.getSession tok = .ok s0)
    (hexp : ¬ s0.Expires < now)
    (hin : s0.LoggedIn = true) :
    (st.logoutID f now tok).err = none ∧
    ∃ sess, (st.logoutID f now tok).sess = some sess ∧
      sess.LoggedIn = false ∧ sess.ID = s0.ID ∧ sess.UserID = s0.UserID := by
  rw [MemoryStore.getSession_ok_iff] at hs
  unfold Store.logoutID Store.getSessionID MemoryStore.getSession
  simp [hs, hexp, hin]

/-- Witness for C10: logging out the concrete logged-in session keeps its
token and bound user ID. -/
theorem C10_logout_preserves_ids_witness :
    (wStore.logoutID "f" 0 "tok").err = none ∧
    ∃ sess, (wStore.logoutID "f" 0 "tok").sess = some sess ∧
      sess.LoggedIn = false ∧ sess.ID = aliceSession.ID ∧
      sess.UserID = aliceSession.UserID :=
  C10_logout_preserves_ids wStore "f" 0 "tok" aliceSession rfl (by decide) rfl

/-- C6: deleteID fails with ErrNotLoggedIn when the token resolves to a
session that is not logged in, leaving the users untouched; on a stored,
unexpired, logged-in session bound to an existing user it removes that user
so a later GetUser fails with ErrUserNotFound, and the returned session has
LoggedIn false and UserID 0. -/
theorem C6_delete_semantics (st : Store) (f : String) (now : Nat) (tok : String) :
    ((∀ s0, st.store.getSession tok = .ok s0 → ¬ s0.Expires < now → s0.LoggedIn = false) →
      (st.deleteID f now tok).err = some .notLoggedIn ∧
      (st.deleteID f now tok).st.store.users = st.store.users) ∧
    (∀ s0 u, st.store.getSession tok = .ok s0 → ¬ s0.Expires < now → s0.LoggedIn = true →
      st.store.getUser s0.UserID = .ok u →
      (st.deleteID f now tok).err = none ∧
      (st.deleteID f now tok).st.store.getUser s0.UserID = .error .userNotFound ∧
      ∃ sess, (st.deleteID f now tok).sess = some sess ∧
        sess.LoggedIn = false ∧ sess.UserID = 0) := by
  constructor
  · intro hanon
    unfold Store.deleteID Store.getSessionID MemoryStore.getSession
    cases hl : st.store.sessions tok with
    | none => simp [makeSession]
    | some s0 =>
      by_cases hexp : s0.Expires < now
      · simp [hexp, makeSession]
      · have hlf := hanon s0 (by rw [MemoryStore.getSession_ok_iff]; exact hl) hexp
        simp [hexp, hlf]
  · intro s0 u hs hexp hin hu
    rw [MemoryStore.getSession_ok_iff] at hs
    rw [MemoryStore.getUser_ok_iff] at hu
    unfold Store.deleteID Store.getSessionID MemoryStore.getSession MemoryStore.deleteUser
    simp [hs, hexp, hin, hu, MemoryStore.putSession, MemoryStore.getUser, Map.erase]

/-- Witness for C6: an unknown token leaves the users untouched and fails
with ErrNotLoggedIn, while deleting through the logged-in session removes
the bound user and unbinds the session. -/
theorem C6_delete_semantics_witness :
    ((wStore.deleteID "f" 0 "x").err = some .notLoggedIn ∧
      (wStore.deleteID "f" 0 "x").st.store.users = wStore.store.users) ∧
    ((wStore.deleteID "g" 0 "tok").err = none ∧
      (wStore.deleteID "g" 0 "tok").st.store.getUser aliceSession.UserID
        = .error .userNotFound ∧
      ∃ sess, (wStore.deleteID "g" 0 "tok").sess = some sess ∧
        sess.LoggedIn = false ∧ sess.UserID = 0) := by
  refine ⟨(C6_delete_semantics wStore "f" 0 "x").1 ?_,
          (C6_delete_semantics wStore "g" 0 "tok").2 aliceSession aliceUser rfl
            (by decide) rfl rfl⟩
  intro s0 h hexp
  simp [wStore, MemoryStore.getSession, Map.insert, Map.empty] at h

/-- C8: on a logged-in session bound to registered user u with password
oldpass, setPassword with a fresh salt succeeds and regenerates the salt,
after which login with the new password succeeds and login with the old
password fails with ErrLoginWrong. -/
theorem C8_set_password_roundtrip (st : Store) (sess sess2 sess3 : Session)
    (name oldpass newpass : String) (salt2 uid : Nat) (u : User)
    (hlog : sess.LoggedIn = true)
    (hbind : sess.UserID = uid)
    (hname : st.store.getUserID name = .ok uid)
    (huser : st.store.getUser uid = .ok u)
    (hid : u.ID = uid)
    (_hpw : u.Pass = scryptKey oldpass u.Salt)
    (hne : newpass ≠ oldpass) :
    ∃ u1, (st.setPassword sess newpass salt2).1 = .ok u1 ∧ u1.Salt = salt2 ∧
      (∃ u2, ({ st with store := (st.setPassword sess newpass salt2).2 }.login
          sess2 name newpass).1 = .ok u2) ∧
      ({ st with store := (st.setPassword sess newpass salt2).2 }.login
          sess3 name oldpass).1 = .error .loginWrong := by
  have hne2 : oldpass ≠ newpass := Ne.symm hne
  have hsp : st.setPassword sess newpass salt2 =
      (.ok { u with Salt := salt2, Pass := scryptKey newpass salt2 },
       st.store.putUser { u with Salt := salt2, Pass := scryptKey newpass salt2 }) := by
    unfold Store.setPassword
    rw [hlog]
    simp only [hbind, huser]
    simp
  have h1 : (st.store.putUser
      { u with Salt := salt2, Pass := scryptKey newpass salt2 }).getUserID name
      = .ok uid := by
    rw [MemoryStore.getUserID_ok_iff]
    rw [MemoryStore.getUserID_ok_iff] at hname
    simpa [MemoryStore.putUser] using hname
  have h2 : (st.store.putUser
      { u with Salt := salt2, Pass := scryptKey newpass salt2 }).getUser uid
      = .ok { u with Salt := salt2, Pass := scryptKey newpass salt2 } := by
    rw [MemoryStore.getUser_ok_iff]
    simp [MemoryStore.putUser, Map.insert, hid]
  rw [hsp]
  refine ⟨_, rfl, rfl, ⟨{ u with Salt := salt2, Pass := scryptKey newpass salt2 }, ?_⟩, ?_⟩
  · unfold Store.login
    simp only [h1]
    simp only [h2]
    simp
  · unfold Store.login
    simp only [h1]
    simp only [h2]
    simp [scryptKey, hne2]

/-- Witness for C8: changing alice's password from pw1 to pw2 with salt 9
lets pw2 log in and makes pw1 fail with ErrLoginWrong. -/
theorem C8_set_password_roundtrip_witness :
    ∃ u1, (wStore.setPassword aliceSession "pw2" 9).1 = .ok u1 ∧ u1.Salt = 9 ∧
      (∃ u2, ({ wStore with store := (wStore.setPassword aliceSession "pw2" 9).2 }.login
          aliceSession "alice" "pw2").1 = .ok u2) ∧
      ({ wStore with store := (wStore.setPassword aliceSession "pw2" 9).2 }.login
          aliceSession "alice" "pw1").1 = .error .loginWrong :=
  C8_set_password_roundtrip wStore aliceSession aliceSession aliceSession
    "alice" "pw1" "pw2" 9 1 aliceUser rfl rfl rfl rfl rfl rfl (by decide)

/-- Lists range' with step one are strictly increasing. -/
theorem range'_pairwise_lt (s n : Nat) : (List.range' s n).Pairwise (· < ·) := by
  induction n generalizing s with
  | zero => simp
  | succ n ih =>
    rw [List.range'_succ s n 1]
    exact List.Pairwise.cons (fun b hb => (List.mem_range'_1.mp hb).1) (ih (s + 1))

/-- A failing or successful rename keeps the ID counter. -/
theorem renameUser_keeps_maxUserID (ms : MemoryStore) (id : Nat) (n : String) :
    (match ms.renameUser id n with | .ok m1 => m1 | .error _ => ms).maxUserID
      = ms.maxUserID := by
  unfold MemoryStore.renameUser
  cases ms.users id <;> simp

/-- A failing or successful delete keeps the ID counter. -/
theorem deleteUser_keeps_maxUserID (ms : MemoryStore) (id : Nat) :
    (match ms.deleteUser id with | .ok m1 => m1 | .error _ => ms).maxUserID
      = ms.maxUserID := by
  unfold MemoryStore.deleteUser
  cases ms.users id <;> simp

/-- Step lemma for traces: an operation that assigns no ID and keeps the
counter contributes nothing to the assigned-ID list. -/
theorem runOps_step_nonadd (ms ms1 : MemoryStore) (ops : List StoreOp)
    (hmax : ms1.maxUserID = ms.maxUserID)
    (hih : ∀ ms2 : MemoryStore, ms2.maxUserID + countAdds ops < uint64Size →
      (ms2.runOps ops).2 = List.range' (ms2.maxUserID + 1) (countAdds ops))
    (h : ms.maxUserID + countAdds ops < uint64Size) :
    ((none : Option Nat).toList ++ (ms1.runOps ops).2)
      = List.range' (ms.maxUserID + 1) (countAdds ops) := by
  rw [hih ms1 (by rw [hmax]; exact h)]
  simp [hmax]

/-- The IDs assigned along a trace whose AddUser count keeps the counter
below the uint64 wrap are the consecutive values just above the starting
counter. -/
theorem runOps_ids (ops : List StoreOp) : ∀ ms : MemoryStore,
    ms.maxUserID + countAdds ops < uint64Size →
    (ms.runOps ops).2 = List.range' (ms.maxUserID + 1) (countAdds ops) := by
  induction ops with
  | nil =>
    intro ms h
    simp [MemoryStore.runOps, countAdds]
  | cons op ops ih =>
    intro ms h
    cases op with
    | addUser u =>
      have hcount : countAdds (StoreOp.addUser u :: ops) = countAdds ops + 1 := rfl
      rw [hcount] at h
      have hlt : ms.maxUserID + 1 < uint64Size := by omega
      have hmod : (ms.maxUserID + 1) % uint64Size = ms.maxUserID + 1 :=
        Nat.mod_eq_of_lt hlt
      simp only [MemoryStore.runOps, MemoryStore.applyOp, MemoryStore.addUser,
        MemoryStore.nextUserID]
      rw [ih _ (by simp [hmod]; omega)]
      simp [hmod, hcount, List.range'_succ]
    | putUser u =>
      simp only [MemoryStore.runOps, MemoryStore.applyOp]
      exact runOps_step_nonadd ms (ms.putUser u) ops rfl ih
        (by simpa [countAdds] using h)
    | renameUser id n =>
      simp only [MemoryStore.runOps, MemoryStore.applyOp]
      exact runOps_step_nonadd ms _ ops (renameUser_keeps_maxUserID ms id n) ih
        (by simpa [countAdds] using h)
    | deleteUser id =>
      simp only [MemoryStore.runOps, MemoryStore.applyOp]
      exact runOps_step_nonadd ms _ ops (deleteUser_keeps_maxUserID ms id) ih
        (by simpa [countAdds] using h)

/-- C7: along any operation sequence on the fresh memory backend with fewer
than 2 ^ 64 AddUser calls, the IDs assigned by AddUser are at least 1 and
strictly increase in order of assignment, so each one exceeds every earlier
one and none is ever reused, also after DeleteUser removed its holder. -/
theorem C7_add_user_ids_monotone (ops : List StoreOp)
    (h : countAdds ops < uint64Size) :
    ((NewMemoryStore.store.runOps ops).2.Pairwise (· < ·)) ∧
    (∀ i ∈ (NewMemoryStore.store.runOps ops).2, 1 ≤ i) := by
  have h0 : NewMemoryStore.store.maxUserID = 0 := rfl
  have hids := runOps_ids ops NewMemoryStore.store (by rw [h0]; omega)
  rw [hids, h0]
  refine ⟨range'_pairwise_lt 1 (countAdds ops), ?_⟩
  intro i hi
  exact (List.mem_range'_1.mp hi).1

/-- Witness for C7 on a short trace register, delete, register: the IDs are
1 then 2, strictly increasing and at least 1. -/
theorem C7_add_user_ids_monotone_witness :
    countAdds [StoreOp.addUser aliceUser, StoreOp.deleteUser 1,
      StoreOp.addUser aliceUser] < uint64Size ∧
    ((NewMemoryStore.store.runOps [StoreOp.addUser aliceUser, StoreOp.deleteUser 1,
        StoreOp.addUser aliceUser]).2.Pairwise (· < ·) ∧
      ∀ i ∈ (NewMemoryStore.store.runOps [StoreOp.addUser aliceUser,
        StoreOp.deleteUser 1, StoreOp.addUser aliceUser]).2, 1 ≤ i) :=
  ⟨by decide, C7_add_user_ids_monotone _ (by decide)⟩

/-- C5 evaluated at the failing input: with only user 1 named alice stored,
renaming it to bob through UserIDSetUsername succeeds, but afterwards the
name bob resolves to no user, registering alice succeeds, and registering
bob also succeeds instead of failing with ErrUserExists: the DeleteUser plus
PutUser rewrite drops the name index entry that RenameUser would have kept,
so the index never maps bob to user 1. -/
theorem C5_userIDSetUsername_loses_index :
    (wStore.userIDSetUsername 1 "bob").1 = .ok { aliceUser with Name := "bob" } ∧
    ({ wStore with store := (wStore.userIDSetUsername 1 "bob").2 }).store.getUserID "bob"
      = .error .userNotFound ∧
    ({ wStore with store := (wStore.userIDSetUsername 1 "bob").2 }.registerID
      "t1" 0 "" "alice" "pwA" 8).err = none ∧
    ({ wStore with store := (wStore.userIDSetUsername 1 "bob").2 }.registerID
      "t2" 0 "" "bob" "pwB" 9).err = none := by
  refine ⟨rfl, rfl, rfl, rfl⟩

end Crowd
